import Mathlib

/-!
Verification of the cycle-control core of the BXT standard rig
(`src/BXT_STANDARD_RIG/MainCycleController.h`).

The repository ships only the class declaration; every member function body
lives in a translation unit that is not part of the sources at hand.  The
operations below are therefore modelled from the specification, faithful to
its wording, over the exact field set declared in the header.
-/

/-- Controller state, mirroring the private fields declared in
`MainCycleController.h` lines 46-53. -/
structure MainCycleController where
  _numberOfSteps : Int
  _currentCycleStep : Int
  _machineRunning : Bool
  _previousCycleStep : Int
  _stepMode : Bool
  _autoMode : Bool
  _resetMode : Bool
  _runAfterReset : Bool
deriving DecidableEq

namespace MainCycleController

/-- Modelled from the spec: the constructor body `MainCycleController(int
numberOfSteps)` is not in the sources.  Spec §4.1: `totalSteps` must be a
positive integer; initializes `currentStep = 0`, `previousStep = 0`, all
booleans false; fails (construction rejected) if `totalSteps <= 0`. -/
def construct (numberOfSteps : Int) : Option MainCycleController :=
  if numberOfSteps ≤ 0 then none
  else some
    { _numberOfSteps := numberOfSteps
      _currentCycleStep := 0
      _machineRunning := false
      _previousCycleStep := 0
      _stepMode := false
      _autoMode := false
      _resetMode := false
      _runAfterReset := false }

/-- Modelled from the spec: body of `setStepMode()` is not in the sources.
Spec §4.1: sets `stepMode = true`, `autoMode = false`. -/
def setStepMode (c : MainCycleController) : MainCycleController :=
  { c with _stepMode := true, _autoMode := false }

/-- Modelled from the spec: body of `stepMode()` is not in the sources.
Spec §4.1: returns current `stepMode` value; no side effect. -/
def stepMode (c : MainCycleController) : Bool := c._stepMode

/-- Modelled from the spec: body of `setAutoMode()` is not in the sources.
Spec §4.1: sets `autoMode = true`, `stepMode = false`. -/
def setAutoMode (c : MainCycleController) : MainCycleController :=
  { c with _autoMode := true, _stepMode := false }

/-- Modelled from the spec: body of `autoMode()` is not in the sources.
Spec §4.1: returns current `autoMode` value; no side effect. -/
def autoMode (c : MainCycleController) : Bool := c._autoMode

/-- Modelled from the spec: body of `setMachineRunningState(bool)` is not in
the sources.  Spec §4.1: sets `running = state` directly. -/
def setMachineRunningState (c : MainCycleController) (machineState : Bool) :
    MainCycleController :=
  { c with _machineRunning := machineState }

/-- Modelled from the spec: body of `toggleMachineRunningState()` is not in
the sources.  Spec §4.1: sets `running = !running`. -/
def toggleMachineRunningState (c : MainCycleController) : MainCycleController :=
  { c with _machineRunning := !c._machineRunning }

/-- Modelled from the spec: body of `machineRunning()` is not in the sources.
Spec §4.1: returns `running`; no side effect. -/
def machineRunning (c : MainCycleController) : Bool := c._machineRunning

/-- Modelled from the spec: body of `switchToNextStep()` is not in the
sources.  Spec §4.1: records `previousStep = currentStep`, then advances
`currentStep = (currentStep + 1) mod totalSteps`. -/
def switchToNextStep (c : MainCycleController) : MainCycleController :=
  { c with
      _previousCycleStep := c._currentCycleStep
      _currentCycleStep := (c._currentCycleStep + 1) % c._numberOfSteps }

/-- Modelled from the spec: body of `setCycleStepTo(int)` is not in the
sources.  Spec §4.1 and §7: directly sets `currentStep` to `step`, updating
`previousStep` to the prior `currentStep` before overwriting; a value outside
`[0, totalSteps)` is rejected (reported synchronously to the caller) and
nothing is stored. -/
def setCycleStepTo (c : MainCycleController) (cycleStep : Int) :
    Option MainCycleController :=
  if 0 ≤ cycleStep ∧ cycleStep < c._numberOfSteps then
    some { c with
            _previousCycleStep := c._currentCycleStep
            _currentCycleStep := cycleStep }
  else none

/-- Modelled from the spec: body of `currentCycleStep()` is not in the
sources.  Spec §4.1: returns `currentStep`; no side effect. -/
def currentCycleStep (c : MainCycleController) : Int := c._currentCycleStep

/-- Modelled from the spec: body of `stepSwitchHappened()` is not in the
sources.  Spec §4.1: returns true if `currentStep != previousStep`; it is a
query with no side effect. -/
def stepSwitchHappened (c : MainCycleController) : Bool :=
  c._currentCycleStep != c._previousCycleStep

/-- Modelled from the spec: body of `setResetMode(bool)` is not in the
sources.  Spec §4.1: sets `resetMode = resetState`; the controller only
stores the flag. -/
def setResetMode (c : MainCycleController) (resetState : Bool) :
    MainCycleController :=
  { c with _resetMode := resetState }

/-- Modelled from the spec: body of `resetMode()` is not in the sources.
Spec §4.1: returns `resetMode`; no side effect. -/
def resetMode (c : MainCycleController) : Bool := c._resetMode

/-- Modelled from the spec: body of `setRunAfterReset(bool)` is not in the
sources.  Spec §4.1: sets the `runAfterReset` flag. -/
def setRunAfterReset (c : MainCycleController) (runAfterReset : Bool) :
    MainCycleController :=
  { c with _runAfterReset := runAfterReset }

/-- Modelled from the spec: body of `runAfterReset()` is not in the sources.
Spec §4.1: returns `runAfterReset`; no side effect. -/
def runAfterReset (c : MainCycleController) : Bool := c._runAfterReset

end MainCycleController

/-- One mutating call of the public interface.  The queries (`stepMode`,
`autoMode`, `machineRunning`, `currentCycleStep`, `stepSwitchHappened`,
`resetMode`, `runAfterReset`) are pure reads and are modelled as functions,
so they do not appear here. -/
inductive Op where
  | opSetStepMode : Op
  | opSetAutoMode : Op
  | opSetMachineRunningState : Bool → Op
  | opToggleMachineRunningState : Op
  | opSwitchToNextStep : Op
  | opSetCycleStepTo : Int → Op
  | opSetResetMode : Bool → Op
  | opSetRunAfterReset : Bool → Op
deriving DecidableEq

/-- Effect of one mutating call on the controller state.  A rejected
`setCycleStepTo` (out-of-range argument) leaves the state unchanged. -/
def applyOp (o : Op) (c : MainCycleController) : MainCycleController :=
  match o with
  | Op.opSetStepMode => c.setStepMode
  | Op.opSetAutoMode => c.setAutoMode
  | Op.opSetMachineRunningState b => c.setMachineRunningState b
  | Op.opToggleMachineRunningState => c.toggleMachineRunningState
  | Op.opSwitchToNextStep => c.switchToNextStep
  | Op.opSetCycleStepTo s => (c.setCycleStepTo s).getD c
  | Op.opSetResetMode b => c.setResetMode b
  | Op.opSetRunAfterReset b => c.setRunAfterReset b

/-- Run a sequence of mutating calls from a given state. -/
def runOps (c : MainCycleController) (ops : List Op) : MainCycleController :=
  ops.foldl (fun s o => applyOp o s) c

/-- `opSwitchToNextStep` and `opSetCycleStepTo` are the only operations that
touch the step counter. -/
def isStepMutator (o : Op) : Bool :=
  match o with
  | Op.opSwitchToNextStep => true
  | Op.opSetCycleStepTo _ => true
  | _ => false

/-- The step-range invariant: a positive step count and both step markers in
`[0, totalSteps)`. -/
def stateInv (c : MainCycleController) : Prop :=
  0 < c._numberOfSteps ∧
  0 ≤ c._currentCycleStep ∧ c._currentCycleStep < c._numberOfSteps ∧
  0 ≤ c._previousCycleStep ∧ c._previousCycleStep < c._numberOfSteps

instance (c : MainCycleController) : Decidable (stateInv c) := by
  unfold stateInv; infer_instance

/-- The mode mutual-exclusion invariant. -/
def modesInv (c : MainCycleController) : Prop :=
  ¬(c._stepMode = true ∧ c._autoMode = true)

instance (c : MainCycleController) : Decidable (modesInv c) := by
  unfold modesInv; infer_instance

/-- Every mutating call preserves the step-range invariant. -/
theorem stateInv_applyOp (o : Op) (c : MainCycleController) (h : stateInv c) :
    stateInv (applyOp o c) := by
  obtain ⟨hn, hc0, hcn, hp0, hpn⟩ := h
  cases o with
  | opSetStepMode => exact ⟨hn, hc0, hcn, hp0, hpn⟩
  | opSetAutoMode => exact ⟨hn, hc0, hcn, hp0, hpn⟩
  | opSetMachineRunningState b => exact ⟨hn, hc0, hcn, hp0, hpn⟩
  | opToggleMachineRunningState => exact ⟨hn, hc0, hcn, hp0, hpn⟩
  | opSwitchToNextStep =>
      exact ⟨hn, Int.emod_nonneg _ (ne_of_gt hn), Int.emod_lt_of_pos _ hn, hc0, hcn⟩
  | opSetCycleStepTo s =>
      show stateInv ((c.setCycleStepTo s).getD c)
      unfold MainCycleController.setCycleStepTo
      split
      · next hin => exact ⟨hn, hin.1, hin.2, hc0, hcn⟩
      · exact ⟨hn, hc0, hcn, hp0, hpn⟩
  | opSetResetMode b => exact ⟨hn, hc0, hcn, hp0, hpn⟩
  | opSetRunAfterReset b => exact ⟨hn, hc0, hcn, hp0, hpn⟩

/-- Running any sequence of mutating calls preserves the step-range
invariant. -/
theorem stateInv_runOps (c : MainCycleController) (ops : List Op) (h : stateInv c) :
    stateInv (runOps c ops) := by
  induction ops generalizing c with
  | nil => exact h
  | cons o rest ih => exact ih (applyOp o c) (stateInv_applyOp o c h)

/-- A successfully constructed controller satisfies the step-range
invariant. -/
theorem construct_stateInv (n : Int) (c : MainCycleController)
    (h : MainCycleController.construct n = some c) : stateInv c := by
  unfold MainCycleController.construct at h
  split at h
  · exact absurd h (by simp)
  · next hn =>
      obtain rfl := Option.some.inj h
      exact ⟨lt_of_not_le hn, le_refl 0, lt_of_not_le hn, le_refl 0, lt_of_not_le hn⟩

/-- Every mutating call preserves mode mutual exclusion. -/
theorem modesInv_applyOp (o : Op) (c : MainCycleController) (h : modesInv c) :
    modesInv (applyOp o c) := by
  cases o with
  | opSetStepMode => exact fun hb => Bool.noConfusion hb.2
  | opSetAutoMode => exact fun hb => Bool.noConfusion hb.1
  | opSetMachineRunningState b => exact h
  | opToggleMachineRunningState => exact h
  | opSwitchToNextStep => exact h
  | opSetCycleStepTo s =>
      show modesInv ((c.setCycleStepTo s).getD c)
      unfold MainCycleController.setCycleStepTo
      split
      · exact h
      · exact h
  | opSetResetMode b => exact h
  | opSetRunAfterReset b => exact h

/-- Running any sequence of mutating calls preserves mode mutual
exclusion. -/
theorem modesInv_runOps (c : MainCycleController) (ops : List Op) (h : modesInv c) :
    modesInv (runOps c ops) := by
  induction ops generalizing c with
  | nil => exact h
  | cons o rest ih => exact ih (applyOp o c) (modesInv_applyOp o c h)

/-- A successfully constructed controller satisfies mode mutual
exclusion. -/
theorem construct_modesInv (n : Int) (c : MainCycleController)
    (h : MainCycleController.construct n = some c) : modesInv c := by
  unfold MainCycleController.construct at h
  split at h
  · exact absurd h (by simp)
  · obtain rfl := Option.some.inj h
    exact fun hb => Bool.noConfusion hb.1

/-- A fixed controller built with `totalSteps = 4`, used to instantiate
theorems on concrete input. -/
def ctrl4 : MainCycleController :=
  { _numberOfSteps := 4
    _currentCycleStep := 0
    _machineRunning := false
    _previousCycleStep := 0
    _stepMode := false
    _autoMode := false
    _resetMode := false
    _runAfterReset := false }

/-- C1: for every controller constructed with a positive `totalSteps` and
every sequence of operations, `0 <= currentCycleStep() < totalSteps` holds
afterwards, and the stored `previousStep` stays in the same range. -/
theorem C1_step_range_invariant (n : Int) (c : MainCycleController) (ops : List Op)
    (h : MainCycleController.construct n = some c) :
    0 ≤ (runOps c ops).currentCycleStep ∧
    (runOps c ops).currentCycleStep < (runOps c ops)._numberOfSteps ∧
    0 ≤ (runOps c ops)._previousCycleStep ∧
    (runOps c ops)._previousCycleStep < (runOps c ops)._numberOfSteps := by
  have hinv := stateInv_runOps c ops (construct_stateInv n c h)
  exact ⟨hinv.2.1, hinv.2.2.1, hinv.2.2.2.1, hinv.2.2.2.2⟩

/-- C1 witness: the invariant instantiated on a controller built with
4 steps and a concrete operation sequence. -/
theorem C1_step_range_invariant_witness :
    0 ≤ (runOps ctrl4 [Op.opSwitchToNextStep, Op.opSwitchToNextStep]).currentCycleStep ∧
    (runOps ctrl4 [Op.opSwitchToNextStep, Op.opSwitchToNextStep]).currentCycleStep <
      (runOps ctrl4 [Op.opSwitchToNextStep, Op.opSwitchToNextStep])._numberOfSteps ∧
    0 ≤ (runOps ctrl4 [Op.opSwitchToNextStep, Op.opSwitchToNextStep])._previousCycleStep ∧
    (runOps ctrl4 [Op.opSwitchToNextStep, Op.opSwitchToNextStep])._previousCycleStep <
      (runOps ctrl4 [Op.opSwitchToNextStep, Op.opSwitchToNextStep])._numberOfSteps :=
  C1_step_range_invariant 4 ctrl4 [Op.opSwitchToNextStep, Op.opSwitchToNextStep] (by decide)

/-- C2: `switchToNextStep()` records `previousStep = currentStep`, sets
`currentStep = (currentStep + 1) mod totalSteps`, and when called at
`totalSteps - 1` the new current step is `0`. -/
theorem C2_switchToNextStep_spec (c : MainCycleController) :
    (c.switchToNextStep._previousCycleStep = c._currentCycleStep ∧
     c.switchToNextStep._currentCycleStep =
       (c._currentCycleStep + 1) % c._numberOfSteps) ∧
    (c._currentCycleStep = c._numberOfSteps - 1 →
      c.switchToNextStep.currentCycleStep = 0) := by
  refine ⟨⟨rfl, rfl⟩, ?_⟩
  intro hlast
  show (c._currentCycleStep + 1) % c._numberOfSteps = 0
  rw [hlast, sub_add_cancel, Int.emod_self]

/-- C2 witness: wraparound on a controller with 4 steps sitting at step 3. -/
theorem C2_switchToNextStep_spec_witness :
    (runOps ctrl4 [Op.opSetCycleStepTo 3]).switchToNextStep._previousCycleStep =
      (runOps ctrl4 [Op.opSetCycleStepTo 3])._currentCycleStep ∧
    (runOps ctrl4 [Op.opSetCycleStepTo 3]).switchToNextStep.currentCycleStep = 0 :=
  ⟨(C2_switchToNextStep_spec (runOps ctrl4 [Op.opSetCycleStepTo 3])).1.1,
   (C2_switchToNextStep_spec (runOps ctrl4 [Op.opSetCycleStepTo 3])).2 (by decide)⟩

/-- C3: `setCycleStepTo` with a value outside `[0, totalSteps)` is rejected
(`none` is returned to the caller) and the controller state, hence
`currentCycleStep()`, is unchanged. -/
theorem C3_setCycleStepTo_rejects_out_of_range (c : MainCycleController) (step : Int)
    (h : step < 0 ∨ c._numberOfSteps ≤ step) :
    c.setCycleStepTo step = none ∧
    applyOp (Op.opSetCycleStepTo step) c = c ∧
    (applyOp (Op.opSetCycleStepTo step) c).currentCycleStep = c.currentCycleStep := by
  have hnot : ¬(0 ≤ step ∧ step < c._numberOfSteps) := by
    rintro ⟨h1, h2⟩
    rcases h with h | h
    · exact absurd h1 (not_le.mpr h)
    · exact absurd h2 (not_lt.mpr h)
  have hrej : c.setCycleStepTo step = none := by
    unfold MainCycleController.setCycleStepTo
    exact if_neg hnot
  have hkeep : applyOp (Op.opSetCycleStepTo step) c = c := by
    show (c.setCycleStepTo step).getD c = c
    rw [hrej]
    rfl
  exact ⟨hrej, hkeep, by rw [hkeep]⟩

/-- C3 witness: `setCycleStepTo(5)` on a controller with `totalSteps = 4`. -/
theorem C3_setCycleStepTo_rejects_out_of_range_witness :
    ctrl4.setCycleStepTo 5 = none ∧
    applyOp (Op.opSetCycleStepTo 5) ctrl4 = ctrl4 ∧
    (applyOp (Op.opSetCycleStepTo 5) ctrl4).currentCycleStep = ctrl4.currentCycleStep :=
  C3_setCycleStepTo_rejects_out_of_range ctrl4 5 (by decide)

/-- C4: construction with `totalSteps <= 0` is rejected; construction with a
positive `totalSteps` succeeds with `currentStep = 0`, `previousStep = 0` and
all boolean fields false. -/
theorem C4_construct_validation (n : Int) :
    (n ≤ 0 → MainCycleController.construct n = none) ∧
    (0 < n → MainCycleController.construct n = some
      { _numberOfSteps := n
        _currentCycleStep := 0
        _machineRunning := false
        _previousCycleStep := 0
        _stepMode := false
        _autoMode := false
        _resetMode := false
        _runAfterReset := false }) := by
  constructor
  · intro h
    unfold MainCycleController.construct
    exact if_pos h
  · intro h
    unfold MainCycleController.construct
    exact if_neg (not_le.mpr h)

/-- C4 witness: construction rejected at 0 and at -2, accepted at 4 with the
fully initialized state. -/
theorem C4_construct_validation_witness :
    MainCycleController.construct 0 = none ∧
    MainCycleController.construct (-2) = none ∧
    MainCycleController.construct 4 = some ctrl4 :=
  ⟨(C4_construct_validation 0).1 (by decide),
   (C4_construct_validation (-2)).1 (by decide),
   (C4_construct_validation 4).2 (by decide)⟩

/-- C5: `setStepMode()` yields step mode on and auto mode off, `setAutoMode()`
the opposite, both are idempotent, and in every reachable state the two modes
are never both true. -/
theorem C5_mode_mutual_exclusion (n : Int) (c0 : MainCycleController) (ops : List Op)
    (h : MainCycleController.construct n = some c0) :
    (runOps c0 ops).setStepMode.stepMode = true ∧
    (runOps c0 ops).setStepMode.autoMode = false ∧
    (runOps c0 ops).setAutoMode.autoMode = true ∧
    (runOps c0 ops).setAutoMode.stepMode = false ∧
    (runOps c0 ops).setStepMode.setStepMode = (runOps c0 ops).setStepMode ∧
    (runOps c0 ops).setAutoMode.setAutoMode = (runOps c0 ops).setAutoMode ∧
    ¬((runOps c0 ops).stepMode = true ∧ (runOps c0 ops).autoMode = true) := by
  exact ⟨rfl, rfl, rfl, rfl, rfl, rfl,
    modesInv_runOps c0 ops (construct_modesInv n c0 h)⟩

/-- C5 witness: mode behaviour on a 4-step controller after one
`setAutoMode` call. -/
theorem C5_mode_mutual_exclusion_witness :
    (runOps ctrl4 [Op.opSetAutoMode]).setStepMode.stepMode = true ∧
    (runOps ctrl4 [Op.opSetAutoMode]).setStepMode.autoMode = false ∧
    (runOps ctrl4 [Op.opSetAutoMode]).setAutoMode.autoMode = true ∧
    (runOps ctrl4 [Op.opSetAutoMode]).setAutoMode.stepMode = false ∧
    (runOps ctrl4 [Op.opSetAutoMode]).setStepMode.setStepMode =
      (runOps ctrl4 [Op.opSetAutoMode]).setStepMode ∧
    (runOps ctrl4 [Op.opSetAutoMode]).setAutoMode.setAutoMode =
      (runOps ctrl4 [Op.opSetAutoMode]).setAutoMode ∧
    ¬((runOps ctrl4 [Op.opSetAutoMode]).stepMode = true ∧
      (runOps ctrl4 [Op.opSetAutoMode]).autoMode = true) :=
  C5_mode_mutual_exclusion 4 ctrl4 [Op.opSetAutoMode] (by decide)

/-- C6: an in-range `setCycleStepTo(step)` stores the prior `currentStep`
into `previousStep` before overwriting `currentStep` with `step`. -/
theorem C6_setCycleStepTo_records_previous (c : MainCycleController) (step : Int)
    (h0 : 0 ≤ step) (h1 : step < c._numberOfSteps) :
    c.setCycleStepTo step = some
      { c with
          _previousCycleStep := c._currentCycleStep
          _currentCycleStep := step } := by
  unfold MainCycleController.setCycleStepTo
  exact if_pos ⟨h0, h1⟩

/-- C6 witness: jumping a fresh 4-step controller to step 2. -/
theorem C6_setCycleStepTo_records_previous_witness :
    ctrl4.setCycleStepTo 2 = some
      { ctrl4 with
          _previousCycleStep := ctrl4._currentCycleStep
          _currentCycleStep := 2 } :=
  C6_setCycleStepTo_records_previous ctrl4 2 (by decide) (by decide)

/-- A fixed controller built with `totalSteps = 1`. -/
def ctrl1 : MainCycleController :=
  { _numberOfSteps := 1
    _currentCycleStep := 0
    _machineRunning := false
    _previousCycleStep := 0
    _stepMode := false
    _autoMode := false
    _resetMode := false
    _runAfterReset := false }

/-- C7 counterexample: on a constructed controller with `totalSteps = 1`,
`switchToNextStep()` wraps step 0 back to step 0, so `currentStep` equals
`previousStep` afterwards and `stepSwitchHappened()` returns false — not
true as the claim asserts for that case. -/
theorem C7_totalSteps_one_no_switch :
    MainCycleController.construct 1 = some ctrl1 ∧
    ctrl1.switchToNextStep.stepSwitchHappened = false := by decide

/-- Stepping stays inside the cycle and moves to a different index whenever
the cycle has at least two steps. -/
theorem emod_succ_ne_self (x n : Int) (h0 : 0 ≤ x) (h1 : x < n) (h2 : 2 ≤ n) :
    (x + 1) % n ≠ x := by
  rcases lt_or_eq_of_le (Int.add_one_le_iff.mpr h1) with hlt | heq
  · rw [Int.emod_eq_of_lt (by linarith) hlt]
    omega
  · rw [heq, Int.emod_self]
    omega

/-- C7 (amended): `stepSwitchHappened()` is true exactly when
`currentStep != previousStep`; after `switchToNextStep()` it is true whenever
the state is in range and `totalSteps >= 2` (with `totalSteps = 1` the wrap
to the same step reports false); after an accepted `setCycleStepTo(step)`
with `step` different from the prior current step it is true. -/
theorem C7_stepSwitchHappened_amended (c : MainCycleController) (step : Int) :
    (c.stepSwitchHappened = true ↔ c._currentCycleStep ≠ c._previousCycleStep) ∧
    (0 ≤ c._currentCycleStep → c._currentCycleStep < c._numberOfSteps →
      2 ≤ c._numberOfSteps → c.switchToNextStep.stepSwitchHappened = true) ∧
    (∀ c', c.setCycleStepTo step = some c' → step ≠ c._currentCycleStep →
      c'.stepSwitchHappened = true) := by
  refine ⟨bne_iff_ne, ?_, ?_⟩
  · intro h0 h1 h2
    show ((c._currentCycleStep + 1) % c._numberOfSteps != c._currentCycleStep) = true
    exact bne_iff_ne.mpr (emod_succ_ne_self _ _ h0 h1 h2)
  · intro c' hc' hne
    unfold MainCycleController.setCycleStepTo at hc'
    split at hc'
    · obtain rfl := Option.some.inj hc'
      show (step != c._currentCycleStep) = true
      exact bne_iff_ne.mpr hne
    · exact absurd hc' (by simp)

/-- C7 witness: the amended statement instantiated on the 4-step controller
and on its accepted jump to step 2. -/
theorem C7_stepSwitchHappened_amended_witness :
    ctrl4.switchToNextStep.stepSwitchHappened = true ∧
    ({ ctrl4 with
        _previousCycleStep := ctrl4._currentCycleStep
        _currentCycleStep := 2 } : MainCycleController).stepSwitchHappened = true :=
  ⟨(C7_stepSwitchHappened_amended ctrl4 2).2.1 (by decide) (by decide) (by decide),
   (C7_stepSwitchHappened_amended ctrl4 2).2.2 _ (by decide) (by decide)⟩

/-- C8: toggling the machine running state twice restores the original
`machineRunning()` value and the whole controller state. -/
theorem C8_toggle_involutive (c : MainCycleController) :
    c.toggleMachineRunningState.toggleMachineRunningState = c ∧
    c.toggleMachineRunningState.toggleMachineRunningState.machineRunning =
      c.machineRunning := by
  have hstate : c.toggleMachineRunningState.toggleMachineRunningState = c := by
    simp [MainCycleController.toggleMachineRunningState]
  exact ⟨hstate, by rw [hstate]⟩

/-- An operation that is not a step mutator leaves both step markers
unchanged. -/
theorem nonmutator_preserves_steps (o : Op) (c : MainCycleController)
    (h : isStepMutator o = false) :
    (applyOp o c)._previousCycleStep = c._previousCycleStep ∧
    (applyOp o c)._currentCycleStep = c._currentCycleStep := by
  cases o
  case opSwitchToNextStep => exact Bool.noConfusion h
  case opSetCycleStepTo => exact Bool.noConfusion h
  all_goals exact ⟨rfl, rfl⟩

/-- C9: `stepSwitchHappened()` reads `currentStep != previousStep` without
mutating anything, and no sequence of non-step-mutating operations changes
either step marker; hence its value — in particular a pending `true` edge —
persists across reads and across all other operations until the next
`switchToNextStep` or `setCycleStepTo`. -/
theorem C9_stepSwitchHappened_not_consumed (c : MainCycleController) (ops : List Op)
    (h : ∀ o ∈ ops, isStepMutator o = false) :
    (runOps c ops)._previousCycleStep = c._previousCycleStep ∧
    (runOps c ops)._currentCycleStep = c._currentCycleStep ∧
    (runOps c ops).stepSwitchHappened = c.stepSwitchHappened := by
  have hfields : (runOps c ops)._previousCycleStep = c._previousCycleStep ∧
      (runOps c ops)._currentCycleStep = c._currentCycleStep := by
    induction ops generalizing c with
    | nil => exact ⟨rfl, rfl⟩
    | cons o rest ih =>
        have ho := h o (List.mem_cons_self o rest)
        have hrest : ∀ o' ∈ rest, isStepMutator o' = false :=
          fun o' ho' => h o' (List.mem_cons_of_mem o ho')
        have hp := nonmutator_preserves_steps o c ho
        have htail := ih (applyOp o c) hrest
        exact ⟨htail.1.trans hp.1, htail.2.trans hp.2⟩
  refine ⟨hfields.1, hfields.2, ?_⟩
  show ((runOps c ops)._currentCycleStep != (runOps c ops)._previousCycleStep) =
    (c._currentCycleStep != c._previousCycleStep)
  rw [hfields.1, hfields.2]

/-- A 4-step controller that has just jumped to step 2, so a step edge is
pending. -/
def ctrlMoved : MainCycleController :=
  { _numberOfSteps := 4
    _currentCycleStep := 2
    _machineRunning := true
    _previousCycleStep := 0
    _stepMode := false
    _autoMode := true
    _resetMode := false
    _runAfterReset := false }

/-- C9 witness: a pending edge survives a reset-flag write and a running
toggle. -/
theorem C9_stepSwitchHappened_not_consumed_witness :
    (runOps ctrlMoved [Op.opSetResetMode true, Op.opToggleMachineRunningState])._previousCycleStep =
      ctrlMoved._previousCycleStep ∧
    (runOps ctrlMoved [Op.opSetResetMode true, Op.opToggleMachineRunningState])._currentCycleStep =
      ctrlMoved._currentCycleStep ∧
    (runOps ctrlMoved [Op.opSetResetMode true, Op.opToggleMachineRunningState]).stepSwitchHappened =
      ctrlMoved.stepSwitchHappened :=
  C9_stepSwitchHappened_not_consumed ctrlMoved
    [Op.opSetResetMode true, Op.opToggleMachineRunningState] (by decide)

/-- C10: `setResetMode` writes only the `resetMode` field and
`setRunAfterReset` writes only the `runAfterReset` field; `running` can stay
true while `resetMode` is true, and the sequence `setResetMode(true);
setRunAfterReset(true); setResetMode(false)` leaves `runAfterReset()` true. -/
theorem C10_reset_flags_frame (c : MainCycleController) (b : Bool) :
    (c.setResetMode b)._resetMode = b ∧
    (c.setResetMode b)._numberOfSteps = c._numberOfSteps ∧
    (c.setResetMode b)._currentCycleStep = c._currentCycleStep ∧
    (c.setResetMode b)._previousCycleStep = c._previousCycleStep ∧
    (c.setResetMode b)._machineRunning = c._machineRunning ∧
    (c.setResetMode b)._stepMode = c._stepMode ∧
    (c.setResetMode b)._autoMode = c._autoMode ∧
    (c.setResetMode b)._runAfterReset = c._runAfterReset ∧
    (c.setRunAfterReset b)._runAfterReset = b ∧
    (c.setRunAfterReset b)._numberOfSteps = c._numberOfSteps ∧
    (c.setRunAfterReset b)._currentCycleStep = c._currentCycleStep ∧
    (c.setRunAfterReset b)._previousCycleStep = c._previousCycleStep ∧
    (c.setRunAfterReset b)._machineRunning = c._machineRunning ∧
    (c.setRunAfterReset b)._stepMode = c._stepMode ∧
    (c.setRunAfterReset b)._autoMode = c._autoMode ∧
    (c.setRunAfterReset b)._resetMode = c._resetMode ∧
    ((c.setMachineRunningState true).setResetMode true).machineRunning = true ∧
    (((c.setResetMode true).setRunAfterReset true).setResetMode false).runAfterReset = true :=
  ⟨rfl, rfl, rfl, rfl, rfl, rfl, rfl, rfl, rfl, rfl, rfl, rfl, rfl, rfl, rfl,
   rfl, rfl, rfl⟩
